import Mathlib

/-!
Verification of the cost aggregation and variance-reporting engine of
src/main.py (gcp-cost-reporter).

Shallow embedding conventions:
  - currency amounts (Python floats) are modelled as exact rationals;
  - pandas dataframes of billing rows are lists of UsageRecord;
  - groupby-and-sum is modelled as filter-and-sum over the list;
  - the Python built-in sorted (a stable sort) is modelled by
    List.insertionSort, which is stable, with the comparison relation
    translated from the sort key (reverse=True flips the comparison);
  - string containment tests (pat in s.lower()) are modelled by an
    explicit substring search over lists of characters;
  - tabulate and clean_currency only render rows to text, so tables are
    modelled structurally as lists of rows carrying the raw values
    together with the variance marker string produced by format_diff.
-/

set_option maxHeartbeats 1000000

/-- Model of Python list prefix test over characters. -/
def charsPre : List Char → List Char → Bool
  | [], _ => true
  | _ :: _, [] => false
  | a :: ps, b :: ls => a == b && charsPre ps ls

/-- Model of Python substring containment: does p occur contiguously in l. -/
def charsSub (p : List Char) : List Char → Bool
  | [] => charsPre p []
  | b :: ls => charsPre p (b :: ls) || charsSub p ls

/-- Character data of a string lowercased, modelling s.lower(). -/
def strLower (s : String) : List Char := s.data.map Char.toLower

/-- Model of the Python test (pat in s.lower()) used throughout main.py.
The pattern literals in the source are already lowercase. -/
def kwIn (pat : String) (s : String) : Bool := charsSub pat.data (strLower s)

/-- Model of expected_so_far in format_diff (src/main.py line 33):
(last_month_total / last_month_days) * days_so_far. -/
def expected_so_far (last_month_total last_month_days days_so_far : ℚ) : ℚ :=
  last_month_total / last_month_days * days_so_far

/-- Two-decimal rendering of a nonnegative rational, modelling the Python
format f-string with .2f used for the percent magnitude in format_diff. -/
def fmt2 (q : ℚ) : String :=
  let n : Int := round (q * 100)
  toString (n / 100) ++ "." ++ (if n % 100 < 10 then "0" else "") ++ toString (n % 100)

/-- Embedding of format_diff (src/main.py lines 30-41).
Returns the pair (marker string, percent diff). The second branch models
the Python ZeroDivisionError raised when last_month_days == 0, which the
surrounding except handler converts to the " N/A" result; rational
division by zero in Lean would otherwise silently yield 0 and diverge
from the source. -/
def format_diff (last_month_total this_month_total days_so_far last_month_days : ℚ) :
    String × ℚ :=
  if last_month_total = 0 ∨ days_so_far = 0 then ("", 0)
  else if last_month_days = 0 then (" N/A", 0)
  else
    let expected := expected_so_far last_month_total last_month_days days_so_far
    if expected = 0 then
      (if this_month_total > 0 then " (↑ ∞%) 🔴" else " (→ 0.00%)", 0)
    else
      let percent_diff := (this_month_total / expected - 1) * 100
      if percent_diff > 0 then (" (↑" ++ fmt2 (abs percent_diff) ++ "%) 🔴", percent_diff)
      else if percent_diff < 0 then (" (↓" ++ fmt2 (abs percent_diff) ++ "%) 🟢", percent_diff)
      else (" (→ 0.00%)", percent_diff)

/-- Embedding of the forecast expression of the driver (src/main.py line 288):
(this_month_total / days_so_far) * end_of_this_month_day if days_so_far > 0 else 0. -/
def forecast (this_month_total : ℚ) (days_so_far : ℕ) (end_of_this_month_day : ℕ) : ℚ :=
  if days_so_far > 0 then this_month_total / (days_so_far : ℚ) * (end_of_this_month_day : ℚ)
  else 0

/-- Embedding of categorize_sku (src/main.py lines 130-148): the ordered
if-cascade of lowercase substring rules, first match wins. -/
def categorize_sku (sku_description : String) : String :=
  if kwIn "local ssd" sku_description || kwIn "local storage" sku_description then
    if kwIn "commitment" sku_description then "Storage: Local SSD/Storage (Committed Use)"
    else "Storage: Local SSD/Storage (On-Demand)"
  else if kwIn " ram " sku_description || kwIn "instance ram" sku_description ||
      kwIn "memory" sku_description then
    if kwIn "spot" sku_description || kwIn "preemptible" sku_description then
      "VM RAM (Spot/Preemptible)"
    else if kwIn "commitment" sku_description then "VM RAM (Committed Use)"
    else "VM RAM (On-Demand)"
  else if kwIn "instance core" sku_description || kwIn "cpu" sku_description then
    if kwIn "spot" sku_description || kwIn "preemptible" sku_description then
      "VM Core Hours (Spot/Preemptible)"
    else if kwIn "commitment" sku_description then "VM Core Hours (Committed Use)"
    else "VM Core Hours (On-Demand)"
  else if kwIn "storage pd" sku_description || kwIn "persistent disk" sku_description then
    if kwIn "snapshot" sku_description then "Storage: PD Snapshots"
    else "Storage: Persistent Disk"
  else if kwIn "data transfer" sku_description then "Network: Data Transfer"
  else if kwIn "ip address" sku_description then "Network: IP Addresses"
  else if kwIn "license" sku_description || kwIn "licensing fee" sku_description then "Licenses"
  else if kwIn "router" sku_description then "Network: Cloud Router"
  else "Other"

/-- Embedding of category_order (src/main.py lines 158-165). -/
def category_order : List String :=
  ["VM Core Hours (On-Demand)", "VM Core Hours (Committed Use)",
   "VM Core Hours (Spot/Preemptible)",
   "VM RAM (On-Demand)", "VM RAM (Committed Use)", "VM RAM (Spot/Preemptible)",
   "Storage: Local SSD/Storage (On-Demand)", "Storage: Local SSD/Storage (Committed Use)",
   "Storage: Persistent Disk", "Storage: PD Snapshots",
   "Network: Data Transfer", "Network: IP Addresses", "Network: Cloud Router",
   "Licenses", "Other"]

/-- Embedding of category_sort_map.get(s, 99) (src/main.py lines 166-167):
the enumerate dictionary maps each label of category_order to its index,
and lookup of an absent label yields the fallback 99. -/
def category_sort_rank (s : String) : ℕ :=
  if s ∈ category_order then category_order.indexOf s else 99

/-- A billing line item as consumed by the report generation phase
(columns required by validate_dataframe, src/main.py lines 90-96). -/
structure UsageRecord where
  project_id : String
  service_id : String
  service_description : String
  sku_description : String
  usage_date : String
  subtotal : ℚ
deriving DecidableEq, Repr

/-- Sum of the subtotal column of a dataframe, modelling df.subtotal.sum(). -/
def sumSubtotal (rs : List UsageRecord) : ℚ := (rs.map UsageRecord.subtotal).sum

/-- Model of df.groupby(key).subtotal.sum().get(k, 0.0): the sum of the
subtotals of the records whose key equals k, and 0 when no record has
that key. -/
def groupSum (rs : List UsageRecord) (key : UsageRecord → String) (k : String) : ℚ :=
  sumSubtotal (rs.filter fun r => key r == k)

/-- The distinct keys of a dataframe under a grouping key, in first
occurrence order. -/
def keysOf (rs : List UsageRecord) (key : UsageRecord → String) : List String :=
  (rs.map key).dedup

/-- Model of df.groupby(key).subtotal.sum().sum() as written on
src/main.py line 115: the sum of the per-group sums over the distinct
keys. -/
def pandasGroupTotal (rs : List UsageRecord) (key : UsageRecord → String) : ℚ :=
  ((keysOf rs key).map (groupSum rs key)).sum

/-- The grouping key of the summary table (src/main.py lines 102-103). -/
def service_key (r : UsageRecord) : String := r.service_description

/-- Model of set(last_services.index) | set(this_services.index)
(src/main.py line 104). Python set iteration order is unspecified; the
embedding fixes it as first-occurrence order, which is the tie-break
order the stable sort preserves. -/
def summary_union (df_last df_this : List UsageRecord) : List String :=
  ((df_last.map service_key) ++ (df_this.map service_key)).dedup

/-- Model of sorted(union, key=lambda s: this_services.get(s, 0),
reverse=True) on src/main.py line 104. Python sorted is stable also with
reverse=True, so it is modelled by the stable insertion sort with the
flipped comparison. -/
def summary_sorted (df_last df_this : List UsageRecord) : List String :=
  List.insertionSort
    (fun a b => groupSum df_this service_key b ≤ groupSum df_this service_key a)
    (summary_union df_last df_this)

/-- One rendered table row, kept structurally: label, the two period sums,
the variance marker produced by format_diff, and the per-day column
values. clean_currency and tabulate only render these values to text. -/
structure CompRow where
  label : String
  last : ℚ
  curr : ℚ
  ann : String
  daily : List ℚ
deriving DecidableEq, Repr

/-- The body of the summary-table row loop (src/main.py lines 108-113) for
one service: none when the noise filter drops the row (last <= 1 and
curr <= 1), otherwise the row. The per-day cells filter df_this by both
the service and the day. -/
def summary_row (df_last df_this : List UsageRecord) (days_so_far last_month_days : ℚ)
    (recent_days : List String) (s : String) : Option CompRow :=
  let last := groupSum df_last service_key s
  let curr := groupSum df_this service_key s
  if last ≤ 1 ∧ curr ≤ 1 then none
  else some
    { label := s, last := last, curr := curr,
      ann := (format_diff last curr days_so_far last_month_days).1,
      daily := recent_days.map fun d =>
        sumSubtotal (df_this.filter fun r => service_key r == s && r.usage_date == d) }

/-- The displayed (non-total) rows of the service summary table, in
display order. -/
def summary_rows (df_last df_this : List UsageRecord) (days_so_far last_month_days : ℚ)
    (recent_days : List String) : List CompRow :=
  (summary_sorted df_last df_this).filterMap
    (summary_row df_last df_this days_so_far last_month_days recent_days)

/-- The Total row of the summary table (src/main.py lines 115-119): both
grand totals are last_services.sum() and this_services.sum(), and the
per-day cells filter df_this by the day only. -/
def summary_total_row (df_last df_this : List UsageRecord) (days_so_far last_month_days : ℚ)
    (recent_days : List String) : CompRow :=
  let gl := pandasGroupTotal df_last service_key
  let gt := pandasGroupTotal df_this service_key
  { label := "Total", last := gl, curr := gt,
    ann := (format_diff gl gt days_so_far last_month_days).1,
    daily := recent_days.map fun d =>
      sumSubtotal (df_this.filter fun r => r.usage_date == d) }

/-- The full summary table: the displayed rows followed by the Total row.
The dash separator row of the source is purely presentational and is not
modelled. -/
def summary_table (df_last df_this : List UsageRecord) (days_so_far last_month_days : ℚ)
    (recent_days : List String) : List CompRow :=
  summary_rows df_last df_this days_so_far last_month_days recent_days ++
    [summary_total_row df_last df_this days_so_far last_month_days recent_days]

/-- The grouping value of a record in the breakdown table: the SKU category
for Compute Engine (the Category column added on src/main.py lines
150-151), the raw SKU description for every other service. -/
def grouping_val (service_name : String) (r : UsageRecord) : String :=
  if service_name = "Compute Engine" then categorize_sku r.sku_description
  else r.sku_description

/-- Model of set(last_costs.index) | set(this_costs.index) in
generate_sku_breakdown_table, fixed as first-occurrence order as for the
summary table. -/
def breakdown_union (service_name : String) (df_last_svc df_this_svc : List UsageRecord) :
    List String :=
  ((df_last_svc.map (grouping_val service_name)) ++
    (df_this_svc.map (grouping_val service_name))).dedup

/-- The display order of breakdown keys (src/main.py lines 167 and 174):
for Compute Engine the stable sort by category_sort_map.get(s, 99), for
other services the stable sort by this-period cost descending. -/
def breakdown_items (service_name : String) (df_last_svc df_this_svc : List UsageRecord) :
    List String :=
  if service_name = "Compute Engine" then
    List.insertionSort (fun a b => category_sort_rank a ≤ category_sort_rank b)
      (breakdown_union service_name df_last_svc df_this_svc)
  else
    List.insertionSort
      (fun a b => groupSum df_this_svc (grouping_val service_name) b ≤
        groupSum df_this_svc (grouping_val service_name) a)
      (breakdown_union service_name df_last_svc df_this_svc)

/-- The body of the breakdown row loop (src/main.py lines 180-185). The
per-day cells come from the comprehension on line 184, which iterates the
date columns with an unused loop variable and never filters by the day:
every day cell repeats the full current-period sum for the key. -/
def breakdown_row (service_name : String) (df_last_svc df_this_svc : List UsageRecord)
    (days_so_far last_month_days : ℚ) (recent_days : List String) (item : String) :
    Option CompRow :=
  let last := groupSum df_last_svc (grouping_val service_name) item
  let curr := groupSum df_this_svc (grouping_val service_name) item
  if last ≤ 1 ∧ curr ≤ 1 then none
  else some
    { label := item, last := last, curr := curr,
      ann := (format_diff last curr days_so_far last_month_days).1,
      daily := recent_days.map fun _ =>
        sumSubtotal (df_this_svc.filter fun r => grouping_val service_name r == item) }

/-- The displayed (non-total) rows of the breakdown table, in display
order. -/
def breakdown_rows (service_name : String) (df_last_svc df_this_svc : List UsageRecord)
    (days_so_far last_month_days : ℚ) (recent_days : List String) : List CompRow :=
  (breakdown_items service_name df_last_svc df_this_svc).filterMap
    (breakdown_row service_name df_last_svc df_this_svc days_so_far last_month_days recent_days)

/-- The Total row of the breakdown table (src/main.py lines 189-193): the
grand totals are the plain column sums of the service-filtered frames, and
the per-day cells do filter by the day. -/
def breakdown_total_row (df_last_svc df_this_svc : List UsageRecord)
    (days_so_far last_month_days : ℚ) (recent_days : List String) : CompRow :=
  { label := "Total", last := sumSubtotal df_last_svc, curr := sumSubtotal df_this_svc,
    ann := (format_diff (sumSubtotal df_last_svc) (sumSubtotal df_this_svc)
      days_so_far last_month_days).1,
    daily := recent_days.map fun d =>
      sumSubtotal (df_this_svc.filter fun r => r.usage_date == d) }

/-- Embedding of generate_sku_breakdown_table (src/main.py lines 122-194):
the empty list models the empty-string sentinel returned when both
service frames are empty or when every row was filtered out. -/
def generate_sku_breakdown_table (service_id service_name : String)
    (df_last df_this : List UsageRecord) (days_so_far last_month_days : ℚ)
    (recent_days : List String) : List CompRow :=
  let df_last_svc := df_last.filter fun r => r.service_id == service_id
  let df_this_svc := df_this.filter fun r => r.service_id == service_id
  if df_this_svc = [] ∧ df_last_svc = [] then []
  else if breakdown_rows service_name df_last_svc df_this_svc days_so_far last_month_days
      recent_days = [] then []
  else breakdown_rows service_name df_last_svc df_this_svc days_so_far last_month_days
      recent_days ++
    [breakdown_total_row df_last_svc df_this_svc days_so_far last_month_days recent_days]

/-- Following the words of the spec for the breakdown per-day columns: the
day-filtered current-period sum for the row key, used only for comparison
with what the code computes. -/
def spec_day_column_value (service_name : String) (df_this_svc : List UsageRecord)
    (item d : String) : ℚ :=
  sumSubtotal (df_this_svc.filter fun r =>
    grouping_val service_name r == item && r.usage_date == d)

/-- Following the words of the spec for the row inclusion filter: a row is
dropped when both period sums have absolute value at most 1 unit. Used
only for comparison with the filter the code implements. -/
def spec_row_dropped (last curr : ℚ) : Prop := |last| ≤ 1 ∧ |curr| ≤ 1

/-- Model of df_this_project.groupby([service_id, service_description])
.subtotal.sum().items() (src/main.py line 314): the distinct service
pairs with their summed cost, in first-occurrence order. -/
def this_month_services (df_this : List UsageRecord) : List ((String × String) × ℚ) :=
  ((df_this.map fun r => (r.service_id, r.service_description)).dedup).map fun k =>
    (k, sumSubtotal (df_this.filter fun r => (r.service_id, r.service_description) == k))

/-- Model of the test 'bigquery' in service_name.lower() on line 318. -/
def is_bigquery_name (service_name : String) : Bool := kwIn "bigquery" service_name

/-- Embedding of sort_key (src/main.py lines 316-319): the pair
(0 if the name contains bigquery else 1, -cost). -/
def sort_key (item : (String × String) × ℚ) : ℕ × ℚ :=
  (if is_bigquery_name item.1.2 then 0 else 1, -item.2)

/-- Lexicographic order of Python tuple comparison on the sort keys. -/
def tuple_le (a b : ℕ × ℚ) : Prop := a.1 < b.1 ∨ (a.1 = b.1 ∧ a.2 ≤ b.2)

instance (a b : ℕ × ℚ) : Decidable (tuple_le a b) := by
  unfold tuple_le
  exact inferInstance

/-- Model of sorted(this_month_services.items(), key=sort_key) on line 321. -/
def sorted_services (df_this : List UsageRecord) : List ((String × String) × ℚ) :=
  List.insertionSort (fun a b => tuple_le (sort_key a) (sort_key b))
    (this_month_services df_this)

/-- The services for which a breakdown is generated, in generation order:
the sorted services restricted by the cost > 1 test of line 324. -/
def breakdown_selection (df_this : List UsageRecord) : List ((String × String) × ℚ) :=
  (sorted_services df_this).filter fun it => if 1 < it.2 then true else false

/-- C1 fixture: one SKU of a non-categorized service with cost on two
different recent days. -/
def c1_df_this : List UsageRecord :=
  [{ project_id := "p", service_id := "svc1", service_description := "My Service",
     sku_description := "SKU X", usage_date := "2026-10-09", subtotal := 10 },
   { project_id := "p", service_id := "svc1", service_description := "My Service",
     sku_description := "SKU X", usage_date := "2026-10-10", subtotal := 20 }]

/-- C1 fixture: the three recent day columns. -/
def c1_days : List String := ["2026-10-09", "2026-10-10", "2026-10-11"]

/-- C3 fixture, last period: one service with a large negative sum. -/
def c3_df_last : List UsageRecord :=
  [{ project_id := "p", service_id := "s1", service_description := "credits svc",
     sku_description := "k", usage_date := "2026-10-01", subtotal := -500 }]

/-- C3 fixture, this period: the same service with a large negative sum. -/
def c3_df_this : List UsageRecord :=
  [{ project_id := "p", service_id := "s1", service_description := "credits svc",
     sku_description := "k", usage_date := "2026-10-05", subtotal := -300 }]

/-- C3 fixture for the spec noise examples, last period: one service with
sum 0.50. -/
def c3_df_small_last : List UsageRecord :=
  [{ project_id := "p", service_id := "s1", service_description := "svc",
     sku_description := "k", usage_date := "2026-10-01", subtotal := 1/2 }]

/-- C3 fixture, this period variant with sum 0.30: the row must be
excluded. -/
def c3_df_small_this_low : List UsageRecord :=
  [{ project_id := "p", service_id := "s1", service_description := "svc",
     sku_description := "k", usage_date := "2026-10-05", subtotal := 3/10 }]

/-- C3 fixture, this period variant with sum 1.50: the row must be
included. -/
def c3_df_small_this_high : List UsageRecord :=
  [{ project_id := "p", service_id := "s1", service_description := "svc",
     sku_description := "k", usage_date := "2026-10-05", subtotal := 3/2 }]

/-- C7 fixture, last period: two services each with last-period sum 100. -/
def c7_df_last : List UsageRecord :=
  [{ project_id := "p", service_id := "s1", service_description := "svc a",
     sku_description := "k", usage_date := "2026-10-01", subtotal := 100 },
   { project_id := "p", service_id := "s2", service_description := "svc b",
     sku_description := "k", usage_date := "2026-10-01", subtotal := 100 }]

/-- C7 fixture, this period: only svc a appears, with a negative sum. -/
def c7_df_this : List UsageRecord :=
  [{ project_id := "p", service_id := "s1", service_description := "svc a",
     sku_description := "k", usage_date := "2026-10-05", subtotal := -5 }]

/-- C6 fixture: Compute Engine records whose categories are Other,
Licenses and VM RAM (On-Demand), with costs ordered against the category
precedence. -/
def c6_df_this : List UsageRecord :=
  [{ project_id := "p", service_id := "ce", service_description := "Compute Engine",
     sku_description := "Misc thing", usage_date := "2026-10-05", subtotal := 1000 },
   { project_id := "p", service_id := "ce", service_description := "Compute Engine",
     sku_description := "Licensing Fee Windows", usage_date := "2026-10-05", subtotal := 500 },
   { project_id := "p", service_id := "ce", service_description := "Compute Engine",
     sku_description := "N1 Instance Ram running in Americas", usage_date := "2026-10-05",
     subtotal := 100 }]

/-- C8 fixture: a 500-cost ordinary service and a 300-cost BigQuery
service. -/
def c8_df_this : List UsageRecord :=
  [{ project_id := "p", service_id := "s1", service_description := "Widget API",
     sku_description := "k", usage_date := "2026-10-05", subtotal := 500 },
   { project_id := "p", service_id := "s2", service_description := "BigQuery",
     sku_description := "k", usage_date := "2026-10-05", subtotal := 300 }]

/-- C4 fixture, last period: two services, one below the noise threshold. -/
def c4_df_last : List UsageRecord :=
  [{ project_id := "p", service_id := "s1", service_description := "big svc",
     sku_description := "sku1", usage_date := "2026-10-01", subtotal := 200 },
   { project_id := "p", service_id := "s2", service_description := "tiny svc",
     sku_description := "sku2", usage_date := "2026-10-01", subtotal := 1/2 }]

/-- C4 fixture, this period: the same two services, the tiny one again
below the noise threshold, so its row is suppressed while the grand total
still includes it. -/
def c4_df_this : List UsageRecord :=
  [{ project_id := "p", service_id := "s1", service_description := "big svc",
     sku_description := "sku1", usage_date := "2026-10-05", subtotal := 80 },
   { project_id := "p", service_id := "s2", service_description := "tiny svc",
     sku_description := "sku2", usage_date := "2026-10-05", subtotal := 1/2 }]

/-- C2: the claim states that compare(0, x, d, D) yields an infinite-increase
marker when x > 0. In the code the guard on line 32 returns the empty marker
whenever the prior total is 0, regardless of the current total: at prior
total 0, current total 5, the marker is empty, not the infinite-increase
marker. -/
theorem c2_prior_zero_counterexample :
    (format_diff 0 5 3 30).1 = "" ∧ (format_diff 0 5 3 30).1 ≠ " (↑ ∞%) 🔴" := by
  constructor
  · rfl
  · decide

/-- C2 amended: whenever the prior-period total is 0 or the elapsed days are
0, format_diff returns the empty marker and percent 0.0 for every current
total, including positive ones; no infinite-increase marker is produced in
that case. -/
theorem c2_prior_zero_neutral (p x d D : ℚ) :
    format_diff 0 x d D = ("", 0) ∧ format_diff p x 0 D = ("", 0) := by
  constructor <;> simp [format_diff]

/-- C5: categorize_sku applies its rules first-match-wins: any descriptor
containing the storage keyword local ssd (and not the commitment keyword)
gets the on-demand local storage category even when CPU keywords also
match, because the storage rule is tested first; in particular the literal
descriptor from the spec, which contains both Instance Core and Local SSD,
resolves to the storage category. -/
theorem c5_storage_rule_precedes_cpu (s : String)
    (h1 : kwIn "local ssd" s = true) (h2 : kwIn "commitment" s = false) :
    categorize_sku s = "Storage: Local SSD/Storage (On-Demand)" ∧
    categorize_sku
        "N1 Predefined Instance Core running in region (spot) with Local SSD attached" =
      "Storage: Local SSD/Storage (On-Demand)" := by
  constructor
  · simp [categorize_sku, h1, h2]
  · decide

/-- C5 witness: the general first-match statement applied at the literal
descriptor named by the spec. -/
theorem c5_storage_rule_precedes_cpu_witness :
    categorize_sku
        "N1 Predefined Instance Core running in region (spot) with Local SSD attached" =
      "Storage: Local SSD/Storage (On-Demand)" ∧
    categorize_sku
        "N1 Predefined Instance Core running in region (spot) with Local SSD attached" =
      "Storage: Local SSD/Storage (On-Demand)" :=
  c5_storage_rule_precedes_cpu
    "N1 Predefined Instance Core running in region (spot) with Local SSD attached"
    (by decide) (by decide)

/-- C9: the end-of-period forecast is current total / elapsed days * total
days when elapsed days is positive and 0 when elapsed days is 0; in the
spec scenario (prior 3100 over 31 days, current 500 after 5 days) the
expected-so-far value is 500, the pace marker is neutral with percent 0,
and the 30-day forecast is 3000. -/
theorem c9_forecast (t : ℚ) (D d : ℕ) (hd : 0 < d) :
    forecast t d D = t / (d : ℚ) * (D : ℚ) ∧
    forecast t 0 D = 0 ∧
    expected_so_far 3100 31 5 = 500 ∧
    format_diff 3100 500 5 31 = (" (→ 0.00%)", 0) ∧
    forecast 500 5 30 = 3000 := by
  refine ⟨by simp [forecast, hd], by simp [forecast], by norm_num [expected_so_far], ?_, ?_⟩
  · norm_num [format_diff, expected_so_far]
  · norm_num [forecast]

/-- C9 witness: the forecast facts instantiated at the concrete scenario. -/
theorem c9_forecast_witness :
    forecast 500 5 30 = 500 / (5 : ℚ) * (30 : ℚ) ∧
    forecast 500 0 30 = 0 ∧
    expected_so_far 3100 31 5 = 500 ∧
    format_diff 3100 500 5 31 = (" (→ 0.00%)", 0) ∧
    forecast 500 5 30 = 3000 :=
  c9_forecast 500 30 5 (by decide)

/-- C10: categorize_sku always returns one of the 15 labels of
category_order, so its sort rank is an index below 15 and the fallback
rank 99 is unreachable for categorized rows; category_order has no
duplicate labels, so every returned category has a unique display
position. -/
theorem c10_categorize_total :
    (∀ s, categorize_sku s ∈ category_order ∧ category_sort_rank (categorize_sku s) < 15) ∧
    category_order.Nodup := by
  constructor
  · intro s
    unfold categorize_sku
    repeat' split
    all_goals exact ⟨by decide, by decide⟩
  · decide

/-- Sums of pointwise-added functions over a list split into two sums. -/
theorem sum_map_add_q {α : Type} (l : List α) (f g : α → ℚ) :
    (l.map fun x => f x + g x).sum = (l.map f).sum + (l.map g).sum := by
  induction l with
  | nil => simp
  | cons a l ih =>
    simp only [List.map_cons, List.sum_cons, ih]
    ring

/-- Summing an indicator over a duplicate-free list that contains the key
yields the indicated value once. -/
theorem sum_map_ite_single (ks : List String) (a : String) (c : ℚ) (hnd : ks.Nodup)
    (ha : a ∈ ks) : (ks.map fun k => if a = k then c else 0).sum = c := by
  induction ks with
  | nil => cases ha
  | cons b bs ih =>
    obtain ⟨hb, hbs⟩ := List.nodup_cons.1 hnd
    rcases List.mem_cons.1 ha with h | h
    · subst h
      simp only [List.map_cons, List.sum_cons, if_pos rfl]
      have hz : (bs.map fun k => if a = k then c else 0).sum = 0 := by
        apply List.sum_eq_zero
        intro x hx
        obtain ⟨k, hk, rfl⟩ := List.mem_map.1 hx
        exact if_neg fun e => hb (by rw [e]; exact hk)
      rw [hz, add_zero]
      simp
    · have hab : ¬(a = b) := fun e => hb (by rw [← e]; exact h)
      simp only [List.map_cons, List.sum_cons, if_neg hab, zero_add]
      exact ih hbs h

/-- Prepending a record adds its subtotal to its own group and leaves the
other groups unchanged. -/
theorem groupSum_cons (r : UsageRecord) (rs : List UsageRecord) (key : UsageRecord → String)
    (k : String) :
    groupSum (r :: rs) key k = (if key r = k then r.subtotal else 0) + groupSum rs key k := by
  by_cases h : key r = k
  · simp [groupSum, sumSubtotal, List.filter_cons, h]
  · simp [groupSum, sumSubtotal, List.filter_cons, h]

/-- The per-group sums over any duplicate-free covering key list add up to
the unfiltered total. -/
theorem sum_groupSum_of_cover (key : UsageRecord → String) :
    ∀ (rs : List UsageRecord) (ks : List String), ks.Nodup → (∀ r ∈ rs, key r ∈ ks) →
      (ks.map (groupSum rs key)).sum = sumSubtotal rs := by
  intro rs
  induction rs with
  | nil =>
    intro ks _ _
    have hz : ∀ x ∈ ks.map (groupSum [] key), x = 0 := by
      intro x hx
      obtain ⟨k, _, rfl⟩ := List.mem_map.1 hx
      simp [groupSum, sumSubtotal]
    simpa [sumSubtotal] using List.sum_eq_zero hz
  | cons r rs ih =>
    intro ks hnd hcov
    have hr : key r ∈ ks := hcov r (List.mem_cons_self r rs)
    have hmap : (ks.map (groupSum (r :: rs) key)).sum
        = (ks.map fun k => (if key r = k then r.subtotal else 0) + groupSum rs key k).sum := by
      rw [List.map_congr_left fun k _ => groupSum_cons r rs key k]
    rw [hmap, sum_map_add_q, sum_map_ite_single ks (key r) r.subtotal hnd hr,
      ih ks hnd fun a ha => hcov a (List.mem_cons_of_mem r ha)]
    simp [sumSubtotal]

/-- The pandas double sum over the groupby result equals the plain column
sum over all records: grouping partitions the rows. -/
theorem pandasGroupTotal_eq_sum (rs : List UsageRecord) (key : UsageRecord → String) :
    pandasGroupTotal rs key = sumSubtotal rs := by
  apply sum_groupSum_of_cover
  · exact (rs.map key).nodup_dedup
  · intro r hr
    exact List.mem_dedup.2 (List.mem_map_of_mem key hr)

/-- A relation preserved by a filterMap step transfers pairwise facts from
the key list to the produced rows. -/
theorem pairwise_filterMap_of {α β : Type} {R : α → α → Prop} {S : β → β → Prop}
    (f : α → Option β)
    (h : ∀ a b x y, R a b → f a = some x → f b = some y → S x y) :
    ∀ {l : List α}, l.Pairwise R → (l.filterMap f).Pairwise S := by
  intro l hl
  induction hl with
  | nil => simp
  | cons ha _ ih =>
    rw [List.filterMap_cons]
    cases hfa : f _ with
    | none => exact ih
    | some x =>
      refine List.Pairwise.cons ?_ ih
      intro y hy
      obtain ⟨b, hb, hfb⟩ := List.mem_filterMap.1 hy
      exact h _ b x y (ha b hb) hfa hfb

/-- What a produced summary row records about its service: label, the two
group sums, and the fact that the noise filter let it through. -/
theorem summary_row_some (df_last df_this : List UsageRecord) (days lm : ℚ)
    (rd : List String) (s : String) (row : CompRow)
    (h : summary_row df_last df_this days lm rd s = some row) :
    row.label = s ∧ row.last = groupSum df_last service_key s ∧
      row.curr = groupSum df_this service_key s ∧
      ¬(groupSum df_last service_key s ≤ 1 ∧ groupSum df_this service_key s ≤ 1) := by
  by_cases hc : groupSum df_last service_key s ≤ 1 ∧ groupSum df_this service_key s ≤ 1
  · simp [summary_row, hc] at h
  · simp only [summary_row, if_neg hc, Option.some.injEq] at h
    subst h
    exact ⟨rfl, rfl, rfl, hc⟩

/-- What a produced breakdown row records about its key. -/
theorem breakdown_row_some (sname : String) (dfLs dfTs : List UsageRecord) (days lm : ℚ)
    (rd : List String) (item : String) (row : CompRow)
    (h : breakdown_row sname dfLs dfTs days lm rd item = some row) :
    row.label = item ∧ row.last = groupSum dfLs (grouping_val sname) item ∧
      row.curr = groupSum dfTs (grouping_val sname) item ∧
      ¬(groupSum dfLs (grouping_val sname) item ≤ 1 ∧
        groupSum dfTs (grouping_val sname) item ≤ 1) := by
  by_cases hc : groupSum dfLs (grouping_val sname) item ≤ 1 ∧
      groupSum dfTs (grouping_val sname) item ≤ 1
  · simp [breakdown_row, hc] at h
  · simp only [breakdown_row, if_neg hc, Option.some.injEq] at h
    subst h
    exact ⟨rfl, rfl, rfl, hc⟩

/-- The displayed summary rows are pairwise ordered by descending
current-period sum. -/
theorem summary_rows_pairwise (df_last df_this : List UsageRecord) (days lm : ℚ)
    (rd : List String) :
    (summary_rows df_last df_this days lm rd).Pairwise fun x y => y.curr ≤ x.curr := by
  have hs : (summary_sorted df_last df_this).Pairwise
      (fun a b => groupSum df_this service_key b ≤ groupSum df_this service_key a) := by
    unfold summary_sorted
    letI : IsTotal String
        (fun a b => groupSum df_this service_key b ≤ groupSum df_this service_key a) :=
      ⟨fun a b => le_total _ _⟩
    letI : IsTrans String
        (fun a b => groupSum df_this service_key b ≤ groupSum df_this service_key a) :=
      ⟨fun a b c h1 h2 => le_trans h2 h1⟩
    exact List.sorted_insertionSort _ _
  refine pairwise_filterMap_of _ ?_ hs
  intro a b x y hab ha hb
  rw [(summary_row_some _ _ _ _ _ _ _ ha).2.2.1, (summary_row_some _ _ _ _ _ _ _ hb).2.2.1]
  exact hab

/-- The displayed Compute Engine breakdown rows are pairwise ordered by
the fixed category precedence rank. -/
theorem breakdown_rows_ce_pairwise (dfLs dfTs : List UsageRecord) (days lm : ℚ)
    (rd : List String) :
    (breakdown_rows "Compute Engine" dfLs dfTs days lm rd).Pairwise
      fun x y => category_sort_rank x.label ≤ category_sort_rank y.label := by
  have hs : (breakdown_items "Compute Engine" dfLs dfTs).Pairwise
      (fun a b => category_sort_rank a ≤ category_sort_rank b) := by
    unfold breakdown_items
    rw [if_pos rfl]
    letI : IsTotal String (fun a b => category_sort_rank a ≤ category_sort_rank b) :=
      ⟨fun a b => le_total _ _⟩
    letI : IsTrans String (fun a b => category_sort_rank a ≤ category_sort_rank b) :=
      ⟨fun a b c h1 h2 => le_trans h1 h2⟩
    exact List.sorted_insertionSort _ _
  refine pairwise_filterMap_of _ ?_ hs
  intro a b x y hab ha hb
  rw [(breakdown_row_some _ _ _ _ _ _ _ _ ha).1, (breakdown_row_some _ _ _ _ _ _ _ _ hb).1]
  exact hab

/-- The tuple order of the service ranking is total. -/
theorem tuple_le_total (a b : ℕ × ℚ) : tuple_le a b ∨ tuple_le b a := by
  unfold tuple_le
  rcases Nat.lt_trichotomy a.1 b.1 with h | h | h
  · exact Or.inl (Or.inl h)
  · rcases le_total a.2 b.2 with h2 | h2
    · exact Or.inl (Or.inr ⟨h, h2⟩)
    · exact Or.inr (Or.inr ⟨h.symm, h2⟩)
  · exact Or.inr (Or.inl h)

/-- The tuple order of the service ranking is transitive. -/
theorem tuple_le_trans (a b c : ℕ × ℚ) (h1 : tuple_le a b) (h2 : tuple_le b c) :
    tuple_le a c := by
  unfold tuple_le at h1 h2 ⊢
  rcases h1 with h1 | ⟨h1e, h1q⟩ <;> rcases h2 with h2 | ⟨h2e, h2q⟩
  · exact Or.inl (h1.trans h2)
  · exact Or.inl (h2e ▸ h1)
  · exact Or.inl (h1e ▸ h2)
  · exact Or.inr ⟨h1e.trans h2e, h1q.trans h2q⟩

/-- The services selected for breakdown generation are pairwise ordered by
the driver sort key. -/
theorem breakdown_selection_pairwise (df_this : List UsageRecord) :
    (breakdown_selection df_this).Pairwise
      fun a b => tuple_le (sort_key a) (sort_key b) := by
  have hs : (sorted_services df_this).Pairwise
      (fun a b => tuple_le (sort_key a) (sort_key b)) := by
    unfold sorted_services
    letI : IsTotal ((String × String) × ℚ) (fun a b => tuple_le (sort_key a) (sort_key b)) :=
      ⟨fun a b => tuple_le_total _ _⟩
    letI : IsTrans ((String × String) × ℚ) (fun a b => tuple_le (sort_key a) (sort_key b)) :=
      ⟨fun a b c => tuple_le_trans _ _ _⟩
    exact List.sorted_insertionSort _ _
  exact List.Pairwise.sublist (List.filter_sublist _) hs

/-- C1: the claim states that each per-day column of the breakdown table
shows that day's current-period sum for the row key. In the code the day
comprehension (src/main.py line 184) never uses the day, so on a key with
sums 10 and 20 on two different recent days (and nothing on the third)
the row shows 30 in all three day columns, while the day-filtered sums
the claim describes are 10, 20 and 0. -/
theorem c1_day_columns_not_day_filtered :
    ((generate_sku_breakdown_table "svc1" "My Service" [] c1_df_this 0 31 c1_days).head?).map
        CompRow.daily = some [30, 30, 30] ∧
    c1_days.map (spec_day_column_value "My Service" c1_df_this "SKU X") = [10, 20, 0] := by
  constructor
  · norm_num +decide [generate_sku_breakdown_table, breakdown_rows, breakdown_items,
      breakdown_union, breakdown_row, breakdown_total_row, grouping_val, groupSum,
      sumSubtotal, c1_df_this, c1_days, format_diff, List.filter_cons, beq_iff_eq,
      List.filterMap_cons, List.dedup_cons_of_mem, List.dedup_cons_of_not_mem]
  · norm_num +decide [spec_day_column_value, grouping_val, groupSum, sumSubtotal,
      c1_df_this, c1_days, List.filter_cons, beq_iff_eq]

/-- C3: the claim states a row is dropped exactly when both period sums
have absolute value at most 1, so a service with large negative sums
(prior -500, current -300) should be displayed. The filter the code
implements (src/main.py line 110) compares the signed sums against 1, so
that service produces no row at all. -/
theorem c3_negative_row_dropped :
    summary_rows c3_df_last c3_df_this 0 31 [] = [] ∧
    groupSum c3_df_last service_key "credits svc" = -500 ∧
    groupSum c3_df_this service_key "credits svc" = -300 ∧
    ¬ spec_row_dropped (-500) (-300) := by
  refine ⟨?_, ?_, ?_, ?_⟩
  · norm_num +decide [summary_rows, summary_sorted, summary_union, summary_row,
      groupSum, sumSubtotal, service_key, c3_df_last, c3_df_this, format_diff,
      List.filter_cons, beq_iff_eq, List.filterMap_cons,
      List.dedup_cons_of_mem, List.dedup_cons_of_not_mem]
  · norm_num [groupSum, sumSubtotal, service_key, c3_df_last, List.filter_cons, beq_iff_eq]
  · norm_num [groupSum, sumSubtotal, service_key, c3_df_this, List.filter_cons, beq_iff_eq]
  · norm_num [spec_row_dropped]

/-- C3 amended: a service appears as a summary row exactly when it occurs
in one of the two periods and not both signed sums are at most 1 (no
absolute value is taken, so rows with large negative sums are dropped
too); the spec noise examples still hold: sums 0.50 and 0.30 give no row,
sums 0.50 and 1.50 give a row. -/
theorem c3_row_filter_signed (df_last df_this : List UsageRecord) (days lm : ℚ)
    (rd : List String) (s : String) :
    ((∃ row ∈ summary_rows df_last df_this days lm rd, row.label = s) ↔
      (s ∈ summary_union df_last df_this ∧
        ¬(groupSum df_last service_key s ≤ 1 ∧ groupSum df_this service_key s ≤ 1)))
    ∧ summary_rows c3_df_small_last c3_df_small_this_low 0 31 [] = []
    ∧ (summary_rows c3_df_small_last c3_df_small_this_high 0 31 []).map CompRow.label =
        ["svc"] := by
  refine ⟨?_, ?_, ?_⟩
  · constructor
    · rintro ⟨row, hrow, hlab⟩
      obtain ⟨k, hk, hrk⟩ := List.mem_filterMap.1 hrow
      obtain ⟨hl, _, _, hcond⟩ := summary_row_some _ _ _ _ _ _ _ hrk
      have hks : k = s := by rw [← hl, hlab]
      subst hks
      refine ⟨?_, hcond⟩
      have hperm := List.perm_insertionSort
        (fun a b => groupSum df_this service_key b ≤ groupSum df_this service_key a)
        (summary_union df_last df_this)
      exact hperm.mem_iff.1 hk
    · rintro ⟨hmem, hcond⟩
      cases hr : summary_row df_last df_this days lm rd s with
      | none => simp [summary_row, if_neg hcond] at hr
      | some row =>
        refine ⟨row, ?_, (summary_row_some _ _ _ _ _ _ _ hr).1⟩
        apply List.mem_filterMap.2
        refine ⟨s, ?_, hr⟩
        have hperm := List.perm_insertionSort
          (fun a b => groupSum df_this service_key b ≤ groupSum df_this service_key a)
          (summary_union df_last df_this)
        exact hperm.mem_iff.2 hmem
  · norm_num +decide [summary_rows, summary_sorted, summary_union, summary_row,
      groupSum, sumSubtotal, service_key, c3_df_small_last, c3_df_small_this_low,
      format_diff, List.filter_cons, beq_iff_eq, List.filterMap_cons,
      List.dedup_cons_of_mem, List.dedup_cons_of_not_mem]
  · norm_num +decide [summary_rows, summary_sorted, summary_union, summary_row,
      groupSum, sumSubtotal, service_key, c3_df_small_last, c3_df_small_this_high,
      format_diff, List.filter_cons, beq_iff_eq, List.filterMap_cons,
      List.dedup_cons_of_mem, List.dedup_cons_of_not_mem]

/-- C7: the claim states that services unseen this period (sort key 0)
trail all services that have current-period cost. With svc a seen this
period at -5 and svc b unseen (key 0), the descending sort places the
unseen svc b before svc a, so an unseen service precedes a service that
has current-period cost. -/
theorem c7_unseen_before_negative :
    (summary_rows c7_df_last c7_df_this 0 31 []).map CompRow.label = ["svc b", "svc a"] ∧
    "svc a" ∈ c7_df_this.map service_key ∧ "svc b" ∉ c7_df_this.map service_key ∧
    groupSum c7_df_this service_key "svc a" < 0 := by
  refine ⟨?_, by decide, by decide, ?_⟩
  · norm_num +decide [summary_rows, summary_sorted, summary_union, summary_row,
      groupSum, sumSubtotal, service_key, c7_df_last, c7_df_this, format_diff,
      List.filter_cons, beq_iff_eq, List.filterMap_cons,
      List.dedup_cons_of_mem, List.dedup_cons_of_not_mem]
  · norm_num [groupSum, sumSubtotal, service_key, c7_df_this, List.filter_cons, beq_iff_eq]

/-- C7 amended: the summary rows are a stable sort of the key union by
descending current-period sum, where a service absent this period is
keyed 0: any earlier row has a current sum at least that of any later
row (so unseen services trail all positively-costed services, though not
services with negative current sums), and each row's current value is the
current-period group sum of its label. -/
theorem c7_rows_sorted_desc (df_last df_this : List UsageRecord) (days lm : ℚ)
    (rd : List String) (i j : ℕ) (hij : i < j) (x y : CompRow)
    (hx : (summary_rows df_last df_this days lm rd)[i]? = some x)
    (hy : (summary_rows df_last df_this days lm rd)[j]? = some y) :
    y.curr ≤ x.curr ∧ (x.curr ≤ 0 → y.curr ≤ 0) ∧
      x.curr = groupSum df_this service_key x.label := by
  obtain ⟨hil, hxx⟩ := List.getElem?_eq_some_iff.1 hx
  obtain ⟨hjl, hyy⟩ := List.getElem?_eq_some_iff.1 hy
  have hp := summary_rows_pairwise df_last df_this days lm rd
  have hrel := List.pairwise_iff_getElem.1 hp i j hil hjl hij
  rw [hxx, hyy] at hrel
  refine ⟨hrel, fun h0 => le_trans hrel h0, ?_⟩
  have hmem : x ∈ summary_rows df_last df_this days lm rd := by
    rw [← hxx]
    exact List.getElem_mem hil
  obtain ⟨s, hsmem, hsx⟩ := List.mem_filterMap.1 hmem
  obtain ⟨hl, _, hc, _⟩ := summary_row_some _ _ _ _ _ _ _ hsx
  rw [hc, hl]

/-- C7 witness: the descending-order fact applied at the two concrete rows
of the c7 fixture. -/
theorem c7_rows_sorted_desc_witness :
    (⟨"svc a", 100, -5, "", []⟩ : CompRow).curr ≤ (⟨"svc b", 100, 0, "", []⟩ : CompRow).curr ∧
    ((⟨"svc b", 100, 0, "", []⟩ : CompRow).curr ≤ 0 →
      (⟨"svc a", 100, -5, "", []⟩ : CompRow).curr ≤ 0) ∧
    (⟨"svc b", 100, 0, "", []⟩ : CompRow).curr =
      groupSum c7_df_this service_key (⟨"svc b", 100, 0, "", []⟩ : CompRow).label :=
  c7_rows_sorted_desc c7_df_last c7_df_this 0 31 [] 0 1 (by decide)
    ⟨"svc b", 100, 0, "", []⟩ ⟨"svc a", 100, -5, "", []⟩
    (by norm_num +decide [summary_rows, summary_sorted, summary_union, summary_row,
      groupSum, sumSubtotal, service_key, c7_df_last, c7_df_this, format_diff,
      List.filter_cons, beq_iff_eq, List.filterMap_cons,
      List.dedup_cons_of_mem, List.dedup_cons_of_not_mem])
    (by norm_num +decide [summary_rows, summary_sorted, summary_union, summary_row,
      groupSum, sumSubtotal, service_key, c7_df_last, c7_df_this, format_diff,
      List.filter_cons, beq_iff_eq, List.filterMap_cons,
      List.dedup_cons_of_mem, List.dedup_cons_of_not_mem])

/-- C4: the Total row is appended last to each table and its prior and
current values are the full unfiltered sums of the records in scope: for
the summary table the pandas double group sum equals the plain sum over
all records, and for the breakdown table the totals are the plain sums
over the service-filtered records, independently of any rows the noise
filter suppressed. -/
theorem c4_grand_totals_unfiltered (df_last df_this : List UsageRecord) (days lm : ℚ)
    (rd : List String) (sid sname : String)
    (hne : breakdown_rows sname (df_last.filter fun r => r.service_id == sid)
      (df_this.filter fun r => r.service_id == sid) days lm rd ≠ []) :
    (summary_table df_last df_this days lm rd).getLast? =
        some (summary_total_row df_last df_this days lm rd)
    ∧ (summary_total_row df_last df_this days lm rd).last = sumSubtotal df_last
    ∧ (summary_total_row df_last df_this days lm rd).curr = sumSubtotal df_this
    ∧ (generate_sku_breakdown_table sid sname df_last df_this days lm rd).getLast? =
        some (breakdown_total_row (df_last.filter fun r => r.service_id == sid)
          (df_this.filter fun r => r.service_id == sid) days lm rd)
    ∧ (breakdown_total_row (df_last.filter fun r => r.service_id == sid)
        (df_this.filter fun r => r.service_id == sid) days lm rd).last =
        sumSubtotal (df_last.filter fun r => r.service_id == sid)
    ∧ (breakdown_total_row (df_last.filter fun r => r.service_id == sid)
        (df_this.filter fun r => r.service_id == sid) days lm rd).curr =
        sumSubtotal (df_this.filter fun r => r.service_id == sid) := by
  refine ⟨List.getLast?_concat _, pandasGroupTotal_eq_sum _ _, pandasGroupTotal_eq_sum _ _,
    ?_, rfl, rfl⟩
  have hboth : ¬((df_this.filter fun r => r.service_id == sid) = [] ∧
      (df_last.filter fun r => r.service_id == sid) = []) := by
    rintro ⟨hT, hL⟩
    apply hne
    simp [breakdown_rows, breakdown_items, breakdown_union, hT, hL]
  simp only [generate_sku_breakdown_table]
  rw [if_neg hboth, if_neg hne]
  exact List.getLast?_concat _

/-- C4 witness: the grand-total facts applied at the c4 fixture, where the
tiny service is suppressed from display but still counted in the totals. -/
theorem c4_grand_totals_unfiltered_witness :
    (summary_table c4_df_last c4_df_this 0 31 []).getLast? =
        some (summary_total_row c4_df_last c4_df_this 0 31 [])
    ∧ (summary_total_row c4_df_last c4_df_this 0 31 []).last = sumSubtotal c4_df_last
    ∧ (summary_total_row c4_df_last c4_df_this 0 31 []).curr = sumSubtotal c4_df_this
    ∧ (generate_sku_breakdown_table "s1" "My Service" c4_df_last c4_df_this 0 31 []).getLast? =
        some (breakdown_total_row (c4_df_last.filter fun r => r.service_id == "s1")
          (c4_df_this.filter fun r => r.service_id == "s1") 0 31 [])
    ∧ (breakdown_total_row (c4_df_last.filter fun r => r.service_id == "s1")
        (c4_df_this.filter fun r => r.service_id == "s1") 0 31 []).last =
        sumSubtotal (c4_df_last.filter fun r => r.service_id == "s1")
    ∧ (breakdown_total_row (c4_df_last.filter fun r => r.service_id == "s1")
        (c4_df_this.filter fun r => r.service_id == "s1") 0 31 []).curr =
        sumSubtotal (c4_df_this.filter fun r => r.service_id == "s1") :=
  c4_grand_totals_unfiltered c4_df_last c4_df_this 0 31 [] "s1" "My Service"
    (by norm_num +decide [breakdown_rows, breakdown_items, breakdown_union, breakdown_row,
      grouping_val, groupSum, sumSubtotal, c4_df_last, c4_df_this, format_diff,
      List.filter_cons, beq_iff_eq, List.filterMap_cons,
      List.dedup_cons_of_mem, List.dedup_cons_of_not_mem])

/-- C6: for Compute Engine the breakdown rows appear in the fixed category
precedence order, not by cost: any earlier displayed row has a category
rank at most that of any later row, and on the c6 fixture, whose costs
are ordered against the precedence (Other 1000, Licenses 500, VM RAM 100),
the displayed order is still VM RAM (On-Demand), Licenses, Other. -/
theorem c6_category_order_display (dfLs dfTs : List UsageRecord) (days lm : ℚ)
    (rd : List String) (i j : ℕ) (hij : i < j) (x y : CompRow)
    (hx : (breakdown_rows "Compute Engine" dfLs dfTs days lm rd)[i]? = some x)
    (hy : (breakdown_rows "Compute Engine" dfLs dfTs days lm rd)[j]? = some y) :
    category_sort_rank x.label ≤ category_sort_rank y.label
    ∧ (breakdown_rows "Compute Engine" [] c6_df_this 0 31 []).map CompRow.label =
        ["VM RAM (On-Demand)", "Licenses", "Other"] := by
  obtain ⟨hil, hxx⟩ := List.getElem?_eq_some_iff.1 hx
  obtain ⟨hjl, hyy⟩ := List.getElem?_eq_some_iff.1 hy
  have hp := breakdown_rows_ce_pairwise dfLs dfTs days lm rd
  have hrel := List.pairwise_iff_getElem.1 hp i j hil hjl hij
  rw [hxx, hyy] at hrel
  refine ⟨hrel, ?_⟩
  norm_num +decide [breakdown_rows, breakdown_items, breakdown_union, breakdown_row,
    grouping_val, categorize_sku, groupSum, sumSubtotal, c6_df_this, format_diff,
    List.filter_cons, beq_iff_eq, List.filterMap_cons,
    List.dedup_cons_of_mem, List.dedup_cons_of_not_mem]

/-- C6 witness: the precedence-order fact applied at the first two rows of
the c6 fixture. -/
theorem c6_category_order_display_witness :
    category_sort_rank (⟨"VM RAM (On-Demand)", 0, 100, "", []⟩ : CompRow).label ≤
      category_sort_rank (⟨"Licenses", 0, 500, "", []⟩ : CompRow).label
    ∧ (breakdown_rows "Compute Engine" [] c6_df_this 0 31 []).map CompRow.label =
        ["VM RAM (On-Demand)", "Licenses", "Other"] :=
  c6_category_order_display [] c6_df_this 0 31 [] 0 1 (by decide)
    ⟨"VM RAM (On-Demand)", 0, 100, "", []⟩ ⟨"Licenses", 0, 500, "", []⟩
    (by norm_num +decide [breakdown_rows, breakdown_items, breakdown_union, breakdown_row,
      grouping_val, categorize_sku, groupSum, sumSubtotal, c6_df_this, format_diff,
      List.filter_cons, beq_iff_eq, List.filterMap_cons,
      List.dedup_cons_of_mem, List.dedup_cons_of_not_mem])
    (by norm_num +decide [breakdown_rows, breakdown_items, breakdown_union, breakdown_row,
      grouping_val, categorize_sku, groupSum, sumSubtotal, c6_df_this, format_diff,
      List.filter_cons, beq_iff_eq, List.filterMap_cons,
      List.dedup_cons_of_mem, List.dedup_cons_of_not_mem])

/-- C8: among the services selected for breakdown generation (current cost
above 1), every service whose name contains bigquery precedes every
service whose name does not, and services with the same priority flag are
ordered by descending cost; on the c8 fixture the 300-cost BigQuery
service is generated before the 500-cost ordinary service. -/
theorem c8_priority_first (df_this : List UsageRecord) (i j : ℕ) (hij : i < j)
    (x y : (String × String) × ℚ)
    (hx : (breakdown_selection df_this)[i]? = some x)
    (hy : (breakdown_selection df_this)[j]? = some y) :
    (is_bigquery_name y.1.2 = true → is_bigquery_name x.1.2 = true)
    ∧ (is_bigquery_name x.1.2 = is_bigquery_name y.1.2 → y.2 ≤ x.2)
    ∧ (breakdown_selection c8_df_this).map (fun it => it.1.2) =
        ["BigQuery", "Widget API"] := by
  obtain ⟨hil, hxx⟩ := List.getElem?_eq_some_iff.1 hx
  obtain ⟨hjl, hyy⟩ := List.getElem?_eq_some_iff.1 hy
  have hp := breakdown_selection_pairwise df_this
  have hrel := List.pairwise_iff_getElem.1 hp i j hil hjl hij
  rw [hxx, hyy] at hrel
  unfold tuple_le sort_key at hrel
  refine ⟨?_, ?_, ?_⟩
  · intro hby
    cases hbx : is_bigquery_name x.1.2 with
    | true => rfl
    | false => simp [hbx, hby] at hrel
  · intro heq
    cases hbx : is_bigquery_name x.1.2 <;> cases hby : is_bigquery_name y.1.2 <;>
      rw [hbx, hby] at heq
    · simp [hbx, hby] at hrel
      linarith
    · exact absurd heq (by decide)
    · exact absurd heq (by decide)
    · simp [hbx, hby] at hrel
      linarith
  · norm_num +decide [breakdown_selection, sorted_services, this_month_services,
      sort_key, tuple_le, is_bigquery_name, sumSubtotal, c8_df_this,
      List.filter_cons, beq_iff_eq,
      List.dedup_cons_of_mem, List.dedup_cons_of_not_mem]

/-- C8 witness: the priority-ordering fact applied at the two selected
services of the c8 fixture. -/
theorem c8_priority_first_witness :
    (is_bigquery_name (("s1", "Widget API"), (500 : ℚ)).1.2 = true →
      is_bigquery_name (("s2", "BigQuery"), (300 : ℚ)).1.2 = true)
    ∧ (is_bigquery_name (("s2", "BigQuery"), (300 : ℚ)).1.2 =
        is_bigquery_name (("s1", "Widget API"), (500 : ℚ)).1.2 →
        (("s1", "Widget API"), (500 : ℚ)).2 ≤ (("s2", "BigQuery"), (300 : ℚ)).2)
    ∧ (breakdown_selection c8_df_this).map (fun it => it.1.2) =
        ["BigQuery", "Widget API"] :=
  c8_priority_first c8_df_this 0 1 (by decide)
    (("s2", "BigQuery"), (300 : ℚ)) (("s1", "Widget API"), (500 : ℚ))
    (by norm_num +decide [breakdown_selection, sorted_services, this_month_services,
      sort_key, tuple_le, is_bigquery_name, sumSubtotal, c8_df_this,
      List.filter_cons, beq_iff_eq,
      List.dedup_cons_of_mem, List.dedup_cons_of_not_mem])
    (by norm_num +decide [breakdown_selection, sorted_services, this_month_services,
      sort_key, tuple_le, is_bigquery_name, sumSubtotal, c8_df_this,
      List.filter_cons, beq_iff_eq,
      List.dedup_cons_of_mem, List.dedup_cons_of_not_mem])
